import Mathlib

/-!
Verification development for the JSON-SQL-Workspace repository.

The repository is a small browser data-exploration tool:
* `server.ts` — an HTTP service serving hardcoded in-memory JSON arrays
  ("tables") behind two read-only REST routes;
* `src/App.tsx` — a single-page client keeping the tables in local state,
  with in-place cell editing, a visual query builder that assembles a SQL
  string, and query execution delegated to the external `alasql` library.

This file shallowly embeds the data model and the operations of those two
source files and proves the frozen claims about them.  JavaScript values
appearing in table cells are modelled by `JVal`; JavaScript objects are
ordered association lists (`Row`); JavaScript runtime primitives with no
source in this repository (string-to-number coercion, number printing,
Unicode lowercasing) are taken as parameters of the definitions that use
them.
-/

set_option autoImplicit false

namespace JsonSqlWorkspace

/-- A JavaScript value as it appears in a table cell: `undefined`, `null`,
a boolean, a number (modelled as a rational; all numbers occurring in the
repository's data are small integers), or a string. -/
inductive JVal where
  | undef
  | jnull
  | jbool (b : Bool)
  | jnum (q : ℚ)
  | jstr (s : String)
  deriving DecidableEq, Repr

/-- A JavaScript object, as used for table rows: an ordered list of
key/value pairs (property insertion order), keys distinct in all data the
application builds. -/
abbrev Row := List (String × JVal)

/-- Property read `row[k]`: the value at the first occurrence of key `k`,
`undefined` when the key is absent. -/
def getKey : Row → String → JVal
  | [], _ => .undef
  | (k', v') :: rest, k => if k' = k then v' else getKey rest k

/-- Property write `row[k] = v` (also `{...row, [k]: v}`): updates the
first occurrence of `k` in place, keeping property order; appends the
property when `k` is absent. -/
def setKey : Row → String → JVal → Row
  | [], k, v => [(k, v)]
  | (k', v') :: rest, k, v =>
      if k' = k then (k, v) :: rest else (k', v') :: setKey rest k v

/-! ## Server model (`server.ts`) -/

/-- The hardcoded `mockData` object of `server.ts` (lines 12–29): three
named JSON arrays, `users`, `roles` and `orders`. -/
def mockData : List (String × List Row) :=
  [ ("users",
      [ [("id", .jnum 1), ("name", .jstr "Alice Johnson"),
         ("email", .jstr "alice@example.com"), ("role_id", .jnum 1)],
        [("id", .jnum 2), ("name", .jstr "Bob Smith"),
         ("email", .jstr "bob@example.com"), ("role_id", .jnum 2)],
        [("id", .jnum 3), ("name", .jstr "Charlie Brown"),
         ("email", .jstr "charlie@example.com"), ("role_id", .jnum 2)],
        [("id", .jnum 4), ("name", .jstr "Diana Prince"),
         ("email", .jstr "diana@example.com"), ("role_id", .jnum 1)] ]),
    ("roles",
      [ [("id", .jnum 1), ("role_name", .jstr "Admin"),
         ("permissions", .jstr "all")],
        [("id", .jnum 2), ("role_name", .jstr "User"),
         ("permissions", .jstr "read-only")] ]),
    ("orders",
      [ [("id", .jnum 101), ("user_id", .jnum 1),
         ("product", .jstr "Laptop"), ("amount", .jnum 1200)],
        [("id", .jnum 102), ("user_id", .jnum 2),
         ("product", .jstr "Mouse"), ("amount", .jnum 25)],
        [("id", .jnum 103), ("user_id", .jnum 1),
         ("product", .jstr "Monitor"), ("amount", .jnum 300)],
        [("id", .jnum 104), ("user_id", .jnum 3),
         ("product", .jstr "Keyboard"), ("amount", .jnum 75)] ]) ]

/-- The two REST routes `server.ts` registers under `/api`
(lines 31 and 35). -/
def apiRoutes : List String := ["/api/tables", "/api/table/:name"]

/-- Body of an HTTP response produced by the two API handlers.
`protoValue p` stands for the serialization of the builtin that the
object literal inherits from `Object.prototype` under the property name
`p` — not a table array. -/
inductive ApiBody where
  | tableNames (names : List String)
  | tableRows (rows : List Row)
  | protoValue (propName : String)
  | errorObj (msg : String)
  deriving DecidableEq, Repr

/-- An HTTP response: status code and JSON body.  `res.json` without an
explicit status sends 200. -/
structure ApiResponse where
  status : ℕ
  body : ApiBody
  deriving DecidableEq, Repr

/-- A request to one of the two API routes. -/
inductive Request where
  | tables
  | table (name : String)
  deriving DecidableEq, Repr

/-- The server's mutable state: the `mockData` record.  (The handlers
never write to it; keeping it as explicit state lets that be proved
rather than assumed.) -/
structure ServerState where
  data : List (String × List Row)
  deriving DecidableEq, Repr

/-- The server state at startup. -/
def serverInit : ServerState := ⟨mockData⟩

/-- Own-key lookup of a table: the array stored under `name` in the
`mockData` literal itself.  This is only part of the JavaScript property
read `mockData[name]` — the full read, including the properties the
literal inherits from `Object.prototype`, is `readProp` below. -/
def lookupTable (s : ServerState) (name : String) : Option (List Row) :=
  (s.data.find? (fun p => p.1 == name)).map (fun p => p.2)

/-- Property names every plain object literal inherits from
`Object.prototype`.  Reading any of them on `mockData` yields a truthy
value: a built-in function, or `Object.prototype` itself for
`"__proto__"`. -/
def objectProtoProps : List String :=
  ["constructor", "hasOwnProperty", "isPrototypeOf",
   "propertyIsEnumerable", "toLocaleString", "toString", "valueOf",
   "__proto__", "__defineGetter__", "__defineSetter__",
   "__lookupGetter__", "__lookupSetter__"]

/-- What the JavaScript property read `mockData[name]` finds: an own
key's array of rows (always truthy — an array object), an inherited
`Object.prototype` member (always truthy, never a table array), or
`undefined` (falsy). -/
inductive PropRead where
  | ownRows (rows : List Row)
  | protoMember (propName : String)
  | undef
  deriving DecidableEq, Repr

/-- The property read `mockData[name]` of `server.ts` line 37: the own
key if present, else the inherited `Object.prototype` member if `name`
names one, else `undefined`. -/
def readProp (s : ServerState) (name : String) : PropRead :=
  match lookupTable s name with
  | some rows => .ownRows rows
  | none =>
      if name ∈ objectProtoProps then .protoMember name
      else PropRead.undef

/-- The two request handlers of `server.ts` (lines 31–42), as a step
function from server state and request to response and next state.
`GET /api/tables` answers `Object.keys(mockData)`.  `GET /api/table/:name`
tests `if (mockData[name])`, JavaScript truthiness of the property read:
an own key's rows are served with 200; an inherited `Object.prototype`
member is also truthy and is serialized with 200 (`protoValue`, the
member kept opaque by name); only an undefined read answers 404 with
`{"error": "Table not found"}`. -/
def handleReq (s : ServerState) : Request → ApiResponse × ServerState
  | .tables => (⟨200, .tableNames (s.data.map Prod.fst)⟩, s)
  | .table name =>
      match readProp s name with
      | .ownRows rows => (⟨200, .tableRows rows⟩, s)
      | .protoMember propName => (⟨200, .protoValue propName⟩, s)
      | .undef => (⟨404, .errorObj "Table not found"⟩, s)

/-- Response of `GET /api/tables` against the startup state. -/
def getTablesResp : ApiResponse := (handleReq serverInit .tables).1

/-- Response of `GET /api/table/:name` against the startup state. -/
def getTable (name : String) : ApiResponse :=
  (handleReq serverInit (.table name)).1

/-- The server state after serving a sequence of requests. -/
def runRequests (s : ServerState) (reqs : List Request) : ServerState :=
  reqs.foldl (fun s r => (handleReq s r).2) s

/-- What the client's full fetch obtains from a server state: the name
list from `/api/tables`, then each named table's rows from
`/api/table/:name`. -/
def fetchAllFrom (s : ServerState) : List (String × List Row) :=
  (s.data.map Prod.fst).filterMap
    (fun n => (lookupTable s n).map (fun rows => (n, rows)))

/-- Serving any request leaves the server state unchanged. -/
theorem handleReq_state (s : ServerState) (r : Request) :
    (handleReq s r).2 = s := by
  cases r with
  | tables => rfl
  | table name =>
      simp only [handleReq]
      cases readProp s name <;> rfl

/-- A request sequence leaves the server state unchanged. -/
theorem runRequests_state (s : ServerState) (reqs : List Request) :
    runRequests s reqs = s := by
  induction reqs generalizing s with
  | nil => rfl
  | cons r rest ih =>
      simp only [runRequests, List.foldl_cons] at *
      rw [handleReq_state, ih]

/-- C3, counterexample: `"constructor"` is not a key of the mock data,
yet `mockData["constructor"]` finds the inherited, truthy
`Object.prototype.constructor`, so `GET /api/table/constructor` takes
the serving branch, not the 404 branch. -/
theorem getTable_constructor_not_404 :
    lookupTable serverInit "constructor" = none ∧
    getTable "constructor" ≠ ⟨404, .errorObj "Table not found"⟩ := by
  decide

/-- C3, amended: `GET /api/table/:name` answers the table's rows with
status 200 when `name` is a key of the mock data; when `name` is neither
a key nor the name of an inherited `Object.prototype` property, it
answers 404 with body `{"error": "Table not found"}` (an inherited
property name is truthy and is served instead); `GET /api/tables`
answers exactly the list of table names. -/
theorem table_routes_spec :
    (∀ name rows, lookupTable serverInit name = some rows →
        getTable name = ⟨200, .tableRows rows⟩) ∧
    (∀ name, lookupTable serverInit name = none →
        name ∉ objectProtoProps →
        getTable name = ⟨404, .errorObj "Table not found"⟩) ∧
    getTablesResp = ⟨200, .tableNames ["users", "roles", "orders"]⟩ := by
  refine ⟨?_, ?_, ?_⟩
  · intro name rows h
    simp [getTable, handleReq, readProp, h]
  · intro name h hproto
    simp [getTable, handleReq, readProp, h, hproto]
  · rfl

/-- Witness for C3: the serving branch and the 404 branch at concrete
names. -/
theorem table_routes_spec_witness :
    getTable "roles" =
      ⟨200, .tableRows
        [ [("id", .jnum 1), ("role_name", .jstr "Admin"),
           ("permissions", .jstr "all")],
          [("id", .jnum 2), ("role_name", .jstr "User"),
           ("permissions", .jstr "read-only")] ]⟩ ∧
    getTable "missing" = ⟨404, .errorObj "Table not found"⟩ := by
  constructor
  · exact table_routes_spec.1 "roles" _ (by decide)
  · exact table_routes_spec.2.1 "missing" (by decide) (by decide)

/-- C4, counterexample: the mock backend holds three static arrays, not
four. -/
theorem mockData_not_four : mockData.length = 3 ∧ ¬ mockData.length = 4 := by
  decide

/-- C4, amended: the mock backend consists of exactly three static arrays
served behind exactly two REST routes. -/
theorem mock_backend_shape : mockData.length = 3 ∧ apiRoutes.length = 2 := by
  decide

/-! ## Visual builder (`App.tsx` lines 45–63) -/

/-- A join row of the visual builder state `vbJoins`. -/
structure VbJoin where
  table : String
  leftCol : String
  rightCol : String
  deriving DecidableEq, Repr

/-- A filter row of the visual builder state `vbFilters`. -/
structure VbFilter where
  column : String
  operator : String
  value : String
  deriving DecidableEq, Repr

/-- One WHERE clause of the generated query (`App.tsx` lines 54–58).
`jsIsNumeric s` models the JavaScript test `!isNaN(Number(s))`; `"\x27"`
is the single-quote character. -/
def filterClause (jsIsNumeric : String → Bool) (base : String)
    (f : VbFilter) : String :=
  let table := if f.column.contains '.' then "" else base ++ "."
  let value := if jsIsNumeric f.value then f.value
               else "\x27" ++ f.value ++ "\x27"
  table ++ f.column ++ " " ++ f.operator ++ " " ++ value

/-- The query string the visual-builder effect assembles (`App.tsx`
lines 45–63): a SELECT over the base table, a JOIN clause appended per
join via `forEach` (`+=` appends the whole template string at once, hence
the grouping), and, when filters exist, a WHERE with the clauses joined
by " AND ". -/
def generatedQuery (jsIsNumeric : String → Bool) (base : String)
    (joins : List VbJoin) (filters : List VbFilter) : String :=
  let q0 := "SELECT * FROM " ++ base
  let q1 := joins.foldl
    (fun q j => q ++ (" JOIN " ++ j.table ++ " ON " ++ base ++ "." ++
      j.leftCol ++ " = " ++ j.table ++ "." ++ j.rightCol)) q0
  if filters.length > 0 then
    q1 ++ (" WHERE " ++
      String.intercalate " AND " (filters.map (filterClause jsIsNumeric base)))
  else q1

/-- Concatenation of a list of strings, in order. -/
def concatAll (l : List String) : String :=
  l.foldr (fun s t => s ++ t) ""

/-- The query string as the specification describes it: exactly
`SELECT * FROM B`, followed in order by one JOIN clause per join,
followed, when the filter list is non-empty, by " WHERE " and the filter
clauses joined with " AND ", where a filter clause prefixes the column
with `B.` unless the column name already contains a dot and quotes the
value exactly when `Number(value)` is NaN. -/
def specQuery (jsIsNumeric : String → Bool) (base : String)
    (joins : List VbJoin) (filters : List VbFilter) : String :=
  "SELECT * FROM " ++ base ++
    concatAll (joins.map (fun j =>
      " JOIN " ++ j.table ++ " ON " ++ base ++ "." ++ j.leftCol ++ " = " ++
        j.table ++ "." ++ j.rightCol)) ++
    (if filters = [] then ""
     else " WHERE " ++
       String.intercalate " AND "
         (filters.map (fun f =>
           (if f.column.contains '.' then "" else base ++ ".") ++
             f.column ++ " " ++ f.operator ++ " " ++
             (if jsIsNumeric f.value then f.value
              else "\x27" ++ f.value ++ "\x27"))))

/-- Folding string append over a list is the initial string followed by
the concatenation of the pieces. -/
theorem foldl_append_eq_concatAll {α : Type} (g : α → String) (l : List α)
    (a : String) :
    l.foldl (fun q j => q ++ g j) a = a ++ concatAll (l.map g) := by
  induction l generalizing a with
  | nil => simp [concatAll]
  | cons x xs ih =>
      simp only [List.foldl_cons, List.map_cons, concatAll, List.foldr_cons]
      rw [ih, String.append_assoc]
      rfl

/-- C1: the query the visual builder generates is exactly the string the
specification describes, for every base table, join list, filter list and
numeric-string test. -/
theorem generatedQuery_spec (jsIsNumeric : String → Bool) (base : String)
    (joins : List VbJoin) (filters : List VbFilter) :
    generatedQuery jsIsNumeric base joins filters =
      specQuery jsIsNumeric base joins filters := by
  unfold generatedQuery specQuery
  dsimp only
  rw [foldl_append_eq_concatAll]
  cases filters with
  | nil => simp
  | cons f fs =>
      have hfc : filterClause jsIsNumeric base = fun g =>
          (if g.column.contains '.' then "" else base ++ ".") ++ g.column ++
            " " ++ g.operator ++ " " ++
            (if jsIsNumeric g.value then g.value
             else "\x27" ++ g.value ++ "\x27") := by
        funext g
        simp [filterClause, String.append_assoc]
      rw [hfc]
      simp [String.append_assoc]

/-- C5: no request handler mutates the in-memory mock data, and every GET
returns an identical response regardless of how many requests preceded
it. -/
theorem responses_invariant :
    (∀ (s : ServerState) (r : Request), (handleReq s r).2 = s) ∧
    (∀ (prev : List Request) (r : Request),
        (handleReq (runRequests serverInit prev) r).1 =
          (handleReq serverInit r).1) := by
  refine ⟨handleReq_state, ?_⟩
  intro prev r
  rw [runRequests_state]

/-! ## Client table state and edits (`App.tsx` lines 25–29, 155–190) -/

/-- A column's declared type (`types.ts`). -/
inductive ColumnType where
  | string
  | number
  | boolean
  | date
  deriving DecidableEq, Repr

/-- A column definition: name and declared type (`types.ts`). -/
structure ColumnDefinition where
  name : String
  type : ColumnType
  deriving DecidableEq, Repr

/-- One table of the client state (`App.tsx` `interface TableState`). -/
structure TableState where
  name : String
  data : List Row
  columns : List ColumnDefinition
  deriving DecidableEq, Repr

/-- Default value used with `List.getD` over table lists. -/
def defaultTable : TableState := ⟨"", [], []⟩

/-- JavaScript array index assignment `l[i] = r`: in range it replaces
the element; at or past the length the array grows to `i + 1` entries,
the skipped positions (absent in JavaScript, read back as `undefined`)
modelled as empty rows. -/
def listSetGrow (l : List Row) (i : ℕ) (r : Row) : List Row :=
  if i < l.length then l.set i r
  else l ++ List.replicate (i - l.length) [] ++ [r]

/-- The body of `updateCell` for the matching table's data (`App.tsx`
lines 158–159): copy the array, then
`newData[rowIndex] = {...newData[rowIndex], [key]: value}` (the spread of
an absent row yields the empty object). -/
def updateRowCell (data : List Row) (i : ℕ) (k : String) (v : JVal) :
    List Row :=
  listSetGrow data i (setKey (data.getD i []) k v)

/-- `updateCell` (`App.tsx` lines 155–164): map over the tables,
replacing the addressed cell of the table with the given name. -/
def updateCell (tables : List TableState) (nm : String) (i : ℕ)
    (k : String) (v : JVal) : List TableState :=
  tables.map fun t =>
    if t.name = nm then { t with data := updateRowCell t.data i k v } else t

/-- `addRow` (`App.tsx` lines 166–177): append a row whose keys are the
first row's keys, each mapped to the empty string; on an empty table the
new row is `{ id: Date.now() }`, the clock value taken as the parameter
`now`. -/
def addRow (now : ℚ) (tables : List TableState) (nm : String) :
    List TableState :=
  tables.map fun t =>
    if t.name = nm then
      let newRow : Row :=
        match t.data with
        | [] => [("id", .jnum now)]
        | r :: _ => r.map (fun kv => (kv.1, .jstr ""))
      { t with data := t.data ++ [newRow] }
    else t

/-- `updateColumnType` (`App.tsx` lines 179–190): in the named table,
give the named column the new type. -/
def updateColumnType (tables : List TableState) (nm : String)
    (colName : String) (newType : ColumnType) : List TableState :=
  tables.map fun t =>
    if t.name = nm then
      { t with
        columns := t.columns.map fun c =>
          if c.name = colName then { c with type := newType } else c }
    else t

/-- Reading the key just written. -/
theorem getKey_setKey_self (r : Row) (k : String) (v : JVal) :
    getKey (setKey r k v) k = v := by
  induction r with
  | nil => simp [setKey, getKey]
  | cons p rest ih =>
      by_cases h : p.1 = k
      · simp [setKey, getKey, h]
      · simp [setKey, getKey, h, ih]

/-- Writing one key leaves every other key unchanged. -/
theorem getKey_setKey_ne (r : Row) (k k2 : String) (v : JVal)
    (h : k2 ≠ k) :
    getKey (setKey r k v) k2 = getKey r k2 := by
  induction r with
  | nil => simp [setKey, getKey, Ne.symm h]
  | cons p rest ih =>
      by_cases hp : p.1 = k
      · simp [setKey, getKey, hp, Ne.symm h]
      · by_cases hp2 : p.1 = k2 <;>
          simp [setKey, getKey, hp, hp2, h, Ne.symm h, ih]

/-- `getD` of an in-range `map`. -/
theorem getD_map_lt {α β : Type} (f : α → β) (l : List α) (j : ℕ)
    (h : j < l.length) (d : β) (d' : α) :
    (l.map f).getD j d = f (l.getD j d') := by
  induction l generalizing j with
  | nil => simp at h
  | cons x xs ih =>
      cases j with
      | zero => simp
      | succ n =>
          simp only [List.map_cons, List.getD_cons_succ]
          exact ih n (by simpa using h)

/-- `getD` after `set` at a different index. -/
theorem getD_set_ne {α : Type} (l : List α) (i r : ℕ) (a : α) (d : α)
    (h : r ≠ i) :
    (l.set i a).getD r d = l.getD r d := by
  induction l generalizing i r with
  | nil => simp
  | cons x xs ih =>
      cases i with
      | zero =>
          cases r with
          | zero => exact absurd rfl h
          | succ m => simp
      | succ n =>
          cases r with
          | zero => simp
          | succ m =>
              have hset : (x :: xs).set (n + 1) a = x :: xs.set n a := rfl
              rw [hset]
              simp only [List.getD_cons_succ]
              exact ih n m (fun hh => h (by rw [hh]))

/-- `getD` after `set` at the written index, in range. -/
theorem getD_set_self {α : Type} (l : List α) (i : ℕ) (a : α) (d : α)
    (h : i < l.length) :
    (l.set i a).getD i d = a := by
  induction l generalizing i with
  | nil => simp at h
  | cons x xs ih =>
      cases i with
      | zero => simp
      | succ n =>
          have hset : (x :: xs).set (n + 1) a = x :: xs.set n a := rfl
          rw [hset]
          simp only [List.getD_cons_succ]
          exact ih n (by simpa using h)

/-- C6: `updateCell` touches only the addressed cell: the table list
keeps its length; every table keeps its name and columns; tables with a
different name are untouched; in the named table, addressed at an index
of an existing row, the row count is unchanged, every other row is
unchanged, the addressed key holds the new value and every other key of
the addressed row is unchanged. -/
theorem updateCell_frame (tables : List TableState) (nm : String) (i : ℕ)
    (k : String) (v : JVal) (j : ℕ) (hj : j < tables.length) :
    (updateCell tables nm i k v).length = tables.length ∧
    ((updateCell tables nm i k v).getD j defaultTable).name =
      (tables.getD j defaultTable).name ∧
    ((updateCell tables nm i k v).getD j defaultTable).columns =
      (tables.getD j defaultTable).columns ∧
    ((tables.getD j defaultTable).name ≠ nm →
      (updateCell tables nm i k v).getD j defaultTable =
        tables.getD j defaultTable) ∧
    ((tables.getD j defaultTable).name = nm →
      i < (tables.getD j defaultTable).data.length →
      ((updateCell tables nm i k v).getD j defaultTable).data.length =
        (tables.getD j defaultTable).data.length ∧
      (∀ r, r ≠ i →
        ((updateCell tables nm i k v).getD j defaultTable).data.getD r [] =
          (tables.getD j defaultTable).data.getD r []) ∧
      getKey
        (((updateCell tables nm i k v).getD j defaultTable).data.getD i [])
        k = v ∧
      (∀ k2, k2 ≠ k →
        getKey
          (((updateCell tables nm i k v).getD j defaultTable).data.getD i [])
          k2 =
        getKey ((tables.getD j defaultTable).data.getD i []) k2)) := by
  have hget : (updateCell tables nm i k v).getD j defaultTable =
      (fun t => if t.name = nm then
        { t with data := updateRowCell t.data i k v } else t)
        (tables.getD j defaultTable) :=
    getD_map_lt _ tables j hj defaultTable defaultTable
  set t := tables.getD j defaultTable with ht
  by_cases hnm : t.name = nm
  · have hdata : (updateCell tables nm i k v).getD j defaultTable =
        { t with data := updateRowCell t.data i k v } := by
      rw [hget]; simp [hnm]
    refine ⟨by simp [updateCell], by rw [hdata], by rw [hdata], ?_, ?_⟩
    · intro hne; exact absurd hnm hne
    · intro _ hi
      rw [hdata]
      have hgrow : updateRowCell t.data i k v =
          t.data.set i (setKey (t.data.getD i []) k v) := by
        simp [updateRowCell, listSetGrow, hi]
      refine ⟨?_, ?_, ?_, ?_⟩
      · simp [hgrow]
      · intro r hr
        simp only [hgrow]
        exact getD_set_ne _ _ _ _ _ hr
      · simp only [hgrow]
        rw [getD_set_self _ _ _ _ hi, getKey_setKey_self]
      · intro k2 hk2
        simp only [hgrow]
        rw [getD_set_self _ _ _ _ hi, getKey_setKey_ne _ _ _ _ hk2]
  · have hsame : (updateCell tables nm i k v).getD j defaultTable = t := by
      rw [hget]; simp [hnm]
    refine ⟨by simp [updateCell], by rw [hsame], by rw [hsame],
      fun _ => hsame, fun h _ => absurd h hnm⟩

/-- Witness for C6: a concrete edit in a two-table state. -/
theorem updateCell_frame_witness :
    getKey
      (((updateCell
          [⟨"users", [[("id", .jnum 1), ("name", .jstr "Alice Johnson")],
                      [("id", .jnum 2), ("name", .jstr "Bob Smith")]],
            [⟨"id", .number⟩, ⟨"name", .string⟩]⟩,
            ⟨"roles", [[("id", .jnum 1)]], [⟨"id", .number⟩]⟩]
          "users" 1 "name" (.jstr "Robert")).getD 0 defaultTable).data.getD
          1 [])
      "name" = .jstr "Robert" ∧
    (updateCell
        [⟨"users", [[("id", .jnum 1), ("name", .jstr "Alice Johnson")],
                    [("id", .jnum 2), ("name", .jstr "Bob Smith")]],
          [⟨"id", .number⟩, ⟨"name", .string⟩]⟩,
          ⟨"roles", [[("id", .jnum 1)]], [⟨"id", .number⟩]⟩]
        "users" 1 "name" (.jstr "Robert")).length = 2 := by
  have h := updateCell_frame
    [⟨"users", [[("id", .jnum 1), ("name", .jstr "Alice Johnson")],
                [("id", .jnum 2), ("name", .jstr "Bob Smith")]],
      [⟨"id", .number⟩, ⟨"name", .string⟩]⟩,
      ⟨"roles", [[("id", .jnum 1)]], [⟨"id", .number⟩]⟩]
    "users" 1 "name" (.jstr "Robert") 0 (by decide)
  exact ⟨(h.2.2.2.2 (by decide) (by decide)).2.2.1, h.1⟩

/-! ## Query execution (`App.tsx` lines 103–153)

`runQuery` casts each table's cells by declared column type, registers
the casted copies with the external `alasql` engine, executes the query
string, and post-processes the engine's return value.  The engine itself
is external code, so it is a parameter: a function from the registered
tables and the query string to either a thrown message or a returned
value.  The JavaScript primitives `Number` on strings and the printing of
numbers are parameters `numOfString` and `numToString`; Unicode
lowercasing is the parameter `toLower`. -/

/-- JavaScript `Number(v)` coercion, `none` meaning `NaN`;
string-to-number parsing is the parameter `numOfString`. -/
def jsNumber (numOfString : String → Option ℚ) : JVal → Option ℚ
  | .undef => none
  | .jnull => some 0
  | .jbool b => some (if b then 1 else 0)
  | .jnum q => some q
  | .jstr s => numOfString s

/-- JavaScript `String(v)` coercion; number printing is the parameter
`numToString`. -/
def jsString (numToString : ℚ → String) : JVal → String
  | .undef => "undefined"
  | .jnull => "null"
  | .jbool b => if b then "true" else "false"
  | .jnum q => numToString q
  | .jstr s => s

/-- The per-column body of the casting loop (`App.tsx` lines 111–121):
when the cell is not `undefined`, `null` or the empty string, a `number`
column becomes `Number(val)` (`0` when that is `NaN`) and a `boolean`
column becomes the test `String(val).toLowerCase() === 'true'`; otherwise
the row is left as is. -/
def castOne (numOfString : String → Option ℚ) (numToString : ℚ → String)
    (toLower : String → String) (r : Row) (col : ColumnDefinition) : Row :=
  let val := getKey r col.name
  if val = JVal.undef ∨ val = JVal.jnull ∨ val = JVal.jstr "" then r
  else
    match col.type with
    | .number =>
        setKey r col.name
          (match jsNumber numOfString val with
           | some q => .jnum q
           | none => .jnum 0)
    | .boolean =>
        setKey r col.name
          (.jbool (toLower (jsString numToString val) == "true"))
    | _ => r

/-- Casting one row (`App.tsx` lines 109–123): `{...row}` copied, then
the column loop applied; later columns read the values earlier columns
wrote, hence the left fold. -/
def castRow (numOfString : String → Option ℚ) (numToString : ℚ → String)
    (toLower : String → String) (cols : List ColumnDefinition)
    (row : Row) : Row :=
  cols.foldl (castOne numOfString numToString toLower) row

/-- The tables as registered with the engine (`App.tsx` lines 108–129):
each table's name with its casted data. -/
def registeredTables (numOfString : String → Option ℚ)
    (numToString : ℚ → String) (toLower : String → String)
    (tables : List TableState) : List (String × List Row) :=
  tables.map fun t =>
    (t.name, t.data.map (castRow numOfString numToString toLower t.columns))

/-- A value returned by the engine: `undefined`, `null`, an array, or a
non-array, non-null value. -/
inductive JsResult (ρ : Type) where
  | undef
  | jnull
  | arr (l : List ρ)
  | nonArray (v : ρ)
  deriving DecidableEq, Repr

/-- The part of the component state `runQuery` touches: the tables, the
query result (`none` models the React state value `null`) and the query
error. -/
structure QueryOutcome (ρ : Type) where
  tables : List TableState
  queryResult : Option (List ρ)
  queryError : Option String
  deriving DecidableEq, Repr

/-- `runQuery` (`App.tsx` lines 103–153): register the casted tables,
execute the query through the engine, then either store the processed
result with no error, or, when the engine throws, store the thrown
message and a `null` result.  The tables state is never written. -/
def runQuery {ρ : Type}
    (engine : List (String × List Row) → String → Except String (JsResult ρ))
    (numOfString : String → Option ℚ) (numToString : ℚ → String)
    (toLower : String → String)
    (tables : List TableState) (query : String) : QueryOutcome ρ :=
  match engine (registeredTables numOfString numToString toLower tables)
      query with
  | .error msg => ⟨tables, none, some msg⟩
  | .ok .undef => ⟨tables, some [], none⟩
  | .ok .jnull => ⟨tables, some [], none⟩
  | .ok (.arr l) => ⟨tables, some l, none⟩
  | .ok (.nonArray v) => ⟨tables, some [v], none⟩

/-- C2: `runQuery` hands the query string to the engine unmodified (the
engine is an arbitrary parameter, applied to exactly `query`), and the
stored result is exactly the engine's return value: unchanged when it is
an array, wrapped in a one-element array when it is a non-array value,
and the empty array when it is `null` or `undefined`. -/
theorem runQuery_delegates {ρ : Type}
    (engine : List (String × List Row) → String → Except String (JsResult ρ))
    (numOfString : String → Option ℚ) (numToString : ℚ → String)
    (toLower : String → String)
    (tables : List TableState) (query : String) (r : JsResult ρ)
    (h : engine (registeredTables numOfString numToString toLower tables)
        query = .ok r) :
    (runQuery engine numOfString numToString toLower tables query).queryResult
      = some (match r with
              | .undef => []
              | .jnull => []
              | .arr l => l
              | .nonArray v => [v]) ∧
    (runQuery engine numOfString numToString toLower tables query).queryError
      = none ∧
    (runQuery engine numOfString numToString toLower tables query).tables
      = tables := by
  cases r <;> simp [runQuery, h]

/-- Witness for C2: a concrete engine returning a two-row array, and one
returning a non-array value. -/
theorem runQuery_delegates_witness :
    (runQuery
        (fun _ _ => .ok (.arr [7, 8]) :
          List (String × List Row) → String → Except String (JsResult ℕ))
        (fun _ => none) (fun _ => "") (fun s => s) []
        "SELECT * FROM users").queryResult = some [7, 8] ∧
    (runQuery
        (fun _ _ => .ok (.nonArray 5) :
          List (String × List Row) → String → Except String (JsResult ℕ))
        (fun _ => none) (fun _ => "") (fun s => s) []
        "SELECT 5").queryResult = some [5] := by
  constructor
  · exact (runQuery_delegates
      (fun _ _ => .ok (.arr [7, 8]) :
        List (String × List Row) → String → Except String (JsResult ℕ))
      (fun _ => none) (fun _ => "") (fun s => s) [] "SELECT * FROM users"
      (.arr [7, 8]) rfl).1
  · exact (runQuery_delegates
      (fun _ _ => .ok (.nonArray 5) :
        List (String × List Row) → String → Except String (JsResult ℕ))
      (fun _ => none) (fun _ => "") (fun s => s) [] "SELECT 5"
      (.nonArray 5) rfl).1

/-- C8: when the engine throws, `runQuery` stores the thrown message as
the query error, `null` as the query result, and leaves the tables state
exactly as it was. -/
theorem runQuery_error {ρ : Type}
    (engine : List (String × List Row) → String → Except String (JsResult ρ))
    (numOfString : String → Option ℚ) (numToString : ℚ → String)
    (toLower : String → String)
    (tables : List TableState) (query : String) (msg : String)
    (h : engine (registeredTables numOfString numToString toLower tables)
        query = .error msg) :
    runQuery engine numOfString numToString toLower tables query =
      ⟨tables, none, some msg⟩ := by
  simp [runQuery, h]

/-- Witness for C8: a concrete always-throwing engine over a one-table
state. -/
theorem runQuery_error_witness :
    runQuery
        (fun _ _ => .error "Parse error" :
          List (String × List Row) → String → Except String (JsResult ℕ))
        (fun _ => none) (fun _ => "") (fun s => s)
        [⟨"users", [[("id", .jnum 1)]], [⟨"id", .number⟩]⟩] "SELEC" =
      ⟨[⟨"users", [[("id", .jnum 1)]], [⟨"id", .number⟩]⟩], none,
        some "Parse error"⟩ :=
  runQuery_error
    (fun _ _ => .error "Parse error" :
      List (String × List Row) → String → Except String (JsResult ℕ))
    (fun _ => none) (fun _ => "") (fun s => s)
    [⟨"users", [[("id", .jnum 1)]], [⟨"id", .number⟩]⟩] "SELEC"
    "Parse error" rfl

/-- C9: the casting `runQuery` applies before registration, cell by cell:
an `undefined`, `null` or empty-string cell is left unchanged; a cell of
a `string` column is left unchanged; otherwise a `number` column's cell
becomes `Number(value)`, `0` when that is `NaN`, and a `boolean` column's
cell becomes `true` exactly when the lowercased string form of the value
is `"true"`.  The registered data is each table's rows with the casts
folded over its declared columns. -/
theorem castOne_cases (numOfString : String → Option ℚ)
    (numToString : ℚ → String) (toLower : String → String)
    (r : Row) (col : ColumnDefinition) :
    ((getKey r col.name = .undef ∨ getKey r col.name = .jnull ∨
        getKey r col.name = .jstr "") →
      castOne numOfString numToString toLower r col = r) ∧
    (col.type = .string →
      castOne numOfString numToString toLower r col = r) ∧
    (col.type = .number →
      ¬ (getKey r col.name = .undef ∨ getKey r col.name = .jnull ∨
          getKey r col.name = .jstr "") →
      castOne numOfString numToString toLower r col =
        setKey r col.name
          (match jsNumber numOfString (getKey r col.name) with
           | some q => .jnum q
           | none => .jnum 0)) ∧
    (col.type = .boolean →
      ¬ (getKey r col.name = .undef ∨ getKey r col.name = .jnull ∨
          getKey r col.name = .jstr "") →
      castOne numOfString numToString toLower r col =
        setKey r col.name
          (.jbool (toLower (jsString numToString (getKey r col.name))
            == "true"))) ∧
    (castRow numOfString numToString toLower [col] r =
      castOne numOfString numToString toLower r col) := by
  refine ⟨?_, ?_, ?_, ?_, rfl⟩
  · intro h
    simp [castOne, h]
  · intro ht
    simp [castOne, ht]
  · intro ht hne
    simp [castOne, ht, hne]
  · intro ht hne
    simp [castOne, ht, hne]

/-- Witness for C9: a number cast at a numeric string and a boolean cast
at the string "true". -/
theorem castOne_cases_witness :
    castOne (fun s => if s == "12" then some 12 else none) (fun _ => "")
        (fun s => s) [("amount", .jstr "12")] ⟨"amount", .number⟩ =
      [("amount", .jnum 12)] ∧
    castOne (fun _ => none) (fun _ => "") (fun s => s)
        [("active", .jstr "true")] ⟨"active", .boolean⟩ =
      [("active", .jbool true)] := by
  constructor
  · have h := (castOne_cases (fun s => if s == "12" then some 12 else none)
      (fun _ => "") (fun s => s) [("amount", .jstr "12")]
      ⟨"amount", .number⟩).2.2.1 rfl (by decide)
    rw [h]
    decide
  · have h := (castOne_cases (fun _ => none) (fun _ => "") (fun s => s)
      [("active", .jstr "true")] ⟨"active", .boolean⟩).2.2.2.1 rfl
      (by decide)
    rw [h]
    decide

/-! ## Client edits never reach the backend (C7)

The three edit handlers (`updateCell`, `addRow`, `updateColumnType`) and
`runQuery` contain no network call at all — they only transform local
React state — so the combined client/server system steps they induce
leave the server component untouched. -/

/-- The combined state of the client's tables and the backend. -/
structure SystemState where
  client : List TableState
  server : ServerState

/-- A client-side edit operation, as invoked from the grid UI. -/
inductive ClientOp where
  | editCell (nm : String) (i : ℕ) (k : String) (v : JVal)
  | appendRow (nm : String) (now : ℚ)
  | setColumnType (nm : String) (colName : String) (ty : ColumnType)

/-- Effect of one client edit on the combined state: the handlers write
only the client tables state (none of them performs any request). -/
def applyClientOp (s : SystemState) : ClientOp → SystemState
  | .editCell nm i k v => ⟨updateCell s.client nm i k v, s.server⟩
  | .appendRow nm now => ⟨addRow now s.client nm, s.server⟩
  | .setColumnType nm colName ty =>
      ⟨updateColumnType s.client nm colName ty, s.server⟩

/-- The combined state after a sequence of client edits. -/
def runClientOps (ops : List ClientOp) (s : SystemState) : SystemState :=
  ops.foldl applyClientOp s

/-- One client edit leaves the server component unchanged. -/
theorem applyClientOp_server (s : SystemState) (op : ClientOp) :
    (applyClientOp s op).server = s.server := by
  cases op <;> rfl

/-- A sequence of client edits leaves the server component unchanged. -/
theorem runClientOps_server (ops : List ClientOp) (s : SystemState) :
    (runClientOps ops s).server = s.server := by
  induction ops generalizing s with
  | nil => rfl
  | cons op rest ih =>
      simp only [runClientOps, List.foldl_cons] at *
      rw [ih, applyClientOp_server]

/-- C7: after any sequence of client edits from any client state, the
backend still holds the original mock data, and re-fetching all tables
returns the original hardcoded rows; moreover running a query leaves the
client tables state itself unchanged (the engine only receives casted
copies). -/
theorem client_edits_preserve_backend (ops : List ClientOp)
    (c0 : List TableState) :
    (runClientOps ops ⟨c0, serverInit⟩).server = serverInit ∧
    fetchAllFrom (runClientOps ops ⟨c0, serverInit⟩).server = mockData ∧
    (∀ (ρ : Type)
        (engine : List (String × List Row) → String →
          Except String (JsResult ρ))
        (numOfString : String → Option ℚ) (numToString : ℚ → String)
        (toLower : String → String)
        (tables : List TableState) (query : String),
      (runQuery engine numOfString numToString toLower tables
          query).tables = tables) := by
  refine ⟨runClientOps_server ops _, ?_, ?_⟩
  · rw [runClientOps_server ops _]
    show fetchAllFrom serverInit = mockData
    decide
  · intro ρ engine numOfString numToString toLower tables query
    unfold runQuery
    cases engine (registeredTables numOfString numToString toLower tables)
        query with
    | error msg => rfl
    | ok r => cases r <;> rfl

/-! ## Initial load and the Reset-to-Default reload (C10)

The initial-load effect (`App.tsx` lines 66–101) builds, for each fetched
table, an object `{ name, data, columns }` with the columns inferred from
the first row.  The Reset-to-Default handler (`App.tsx` lines 281–299)
builds only `{ name, data }` — no `columns` property — and stores that
into the same `tables` state, against the declared `TableState`
interface (the fetched JSON is typed `any`, so the compiler does not
reject it). -/

/-- A table object as built by a fetch handler, before it is stored into
the typed tables state; `columns` is `none` when the handler put no
`columns` property on the object. -/
structure LoadedTable where
  name : String
  data : List Row
  columns : Option (List ColumnDefinition)
  deriving DecidableEq, Repr

/-- Column type inference from a first-row value (`App.tsx`
lines 80–82): `number` for a number, `boolean` for a boolean, `string`
otherwise. -/
def inferType : JVal → ColumnType
  | .jnum _ => .number
  | .jbool _ => .boolean
  | _ => .string

/-- Column inference from the first row (`App.tsx` lines 77–85): one
definition per key of the first row; no columns for an empty table. -/
def inferColumns (data : List Row) : List ColumnDefinition :=
  match data with
  | [] => []
  | row :: _ => row.map fun kv => ⟨kv.1, inferType kv.2⟩

/-- What the client fetches at startup: every named table's rows. -/
def fetchAll : List (String × List Row) := fetchAllFrom serverInit

/-- The tables the initial-load effect stores (`App.tsx` lines 72–91):
`{ name, data, columns }` with inferred columns. -/
def initialLoad (fetched : List (String × List Row)) : List LoadedTable :=
  fetched.map fun p => ⟨p.1, p.2, some (inferColumns p.2)⟩

/-- The tables the Reset-to-Default handler stores (`App.tsx`
lines 286–292): `{ name, data }` only — the handler never builds a
`columns` property. -/
def resetLoad (fetched : List (String × List Row)) : List LoadedTable :=
  fetched.map fun p => ⟨p.1, p.2, none⟩

/-- C10 fails on the code: after Reset to Default every stored table has
an undefined `columns`, while the initial load defines `columns` on every
table. -/
theorem resetLoad_omits_columns :
    (resetLoad fetchAll).map LoadedTable.columns = [none, none, none] ∧
    (initialLoad fetchAll).map (fun t => t.columns.isSome) =
      [true, true, true] := by
  decide

end JsonSqlWorkspace
